import Mathlib

/-!
Verification of the `to-do-frontend` client against its specification.

The repository is a client-side todo application: `src/App.js` (a React
component) and a second, legacy plain-script source file (`unnamed/part_000`).
Both talk to an external identity provider and a task HTTP API.  We embed the
relevant functions shallowly: every provider call, HTTP round trip and browser
prompt becomes an explicit outcome value passed in as an argument, React
state becomes an explicit `AppState` record, and each handler becomes a pure
function from the previous state and the environment's outcomes to the next
state together with the list of HTTP requests it issued.
-/

/-- Whitespace characters stripped by a JavaScript `String.prototype.trim`
(the ASCII subset, which covers the inputs in question). -/
def isJsWhitespace (c : Char) : Bool :=
  c = ' ' || c = '\t' || c = '\n' || c = '\r' || c = '\x0b' || c = '\x0c'

/-- JavaScript `s.trim()`: drop leading and trailing whitespace. -/
def jsTrim (s : String) : String :=
  String.mk (((s.data.dropWhile isJsWhitespace).reverse.dropWhile isJsWhitespace).reverse)

/-- JavaScript single-character `String.prototype.split`: split a character
list at every occurrence of `c`.  Always returns at least one component. -/
def splitChar (c : Char) : List Char → List (List Char)
  | [] => [[]]
  | x :: xs =>
    if x = c then [] :: splitChar c xs
    else
      match splitChar c xs with
      | [] => [[x]]
      | h :: t => (x :: h) :: t

/-- JavaScript `sk.split(sep)` for a one-character separator, as strings. -/
def jsSplit (sep : Char) (s : String) : List String :=
  (splitChar sep s.data).map String.mk

/-- JavaScript coercion of a possibly-`undefined` string into a template
literal: `undefined` prints as the literal text `undefined`. -/
def jsToString : Option String → String
  | some s => s
  | none => "undefined"

namespace App

/-- A task as held in the `tasks` React state (shape produced by the API). -/
structure Task where
  SK : String
  Description : String
  Status : String
  Date : String
  Deadline : String
deriving DecidableEq

/-- The identity returned by the provider's `getCurrentUser`. -/
structure UserInfo where
  userId : String
  username : String
deriving DecidableEq

/-- The React state of the `App` component (`useState` hooks). -/
structure AppState where
  user : Option UserInfo
  tasks : List Task
  loading : Bool
  error : String
  email : String
  password : String
  isSignUp : Bool
  needsConfirmation : Bool
  confirmationCode : String
  newTaskDescription : String
  filter : String
deriving DecidableEq

/-- Outcome of `fetchAuthSession({ forceRefresh: true })`: either a session
whose `tokens?.idToken` may still be absent, or a thrown provider error. -/
inductive SessionResult where
  | ok (idToken : Option String)
  | err (msg : String)
deriving DecidableEq

/-- Outcome of one browser `fetch` call: either an HTTP response (with its
status code and, for the task list, the optional `Items` field of the parsed
JSON body) or a network-level rejection carrying the thrown error's message. -/
inductive FetchOutcome where
  | response (status : Nat) (items : Option (List Task))
  | networkError (msg : String)
deriving DecidableEq

/-- An HTTP request issued by the component. -/
structure Request where
  method : String
  url : String
  auth : Option String
  body : Option String
deriving DecidableEq

/-- The value of `response.ok`: status in the inclusive range 200–299. -/
def respOk (status : Nat) : Bool := 200 ≤ status && status < 300

/-- True when the outcome makes the surrounding `try` block throw:
a network-level rejection, or a non-2xx response (the code throws on
`!response.ok`). -/
def outcomeFails : FetchOutcome → Bool
  | .response status _ => !respOk status
  | .networkError _ => true

/-- The configured API base URL (`process.env.REACT_APP_API_URL`); its value
is opaque build-time configuration, so any fixed string stands for it. -/
def API_ENDPOINT : String := "REACT_APP_API_URL"

/-- App.js `getAuthToken`: return `tokens?.idToken?.toString()`, or `null`
when `fetchAuthSession` throws (the error is only logged, never surfaced). -/
def getAuthToken : SessionResult → Option String
  | .ok t => t
  | .err _ => none

/-- App.js `getTaskId`: `sk.split('#')[1]`, which is `undefined` (here
`none`) when the key has fewer than two `#`-separated components. -/
def getTaskId (sk : String) : Option String :=
  (jsSplit '#' sk)[1]?

/-- URL of the task collection. -/
def tasksUrl : String := API_ENDPOINT ++ "/tasks"

/-- URL of a single task: the template literal interpolates an
`undefined` id as the text `undefined`. -/
def taskUrl (taskId : Option String) : String :=
  API_ENDPOINT ++ "/tasks/" ++ jsToString taskId

/-- App.js `checkUser`: set `user` from `getCurrentUser`, or `null` when the
provider throws. -/
inductive CurrentUserResult where
  | ok (u : UserInfo)
  | err
deriving DecidableEq

def checkUser (s : AppState) : CurrentUserResult → AppState
  | .ok u => { s with user := some u }
  | .err => { s with user := none }

/-- App.js `fetchTasks`: set loading and clear the error, get a token, issue
`GET /tasks`, on a 2xx response replace `tasks` with `data.Items || []`, on a
non-2xx response or network rejection record the error message and leave
`tasks` untouched; `finally` clears the loading flag. -/
def fetchTasks (s : AppState) (session : SessionResult) (out : FetchOutcome) :
    AppState × List Request :=
  let s1 := { s with loading := true, error := "" }
  let req : Request :=
    { method := "GET", url := tasksUrl, auth := getAuthToken session, body := none }
  match out with
  | .networkError msg => ({ s1 with error := msg, loading := false }, [req])
  | .response status items =>
    if respOk status then
      ({ s1 with tasks := items.getD [], loading := false }, [req])
    else
      ({ s1 with error := "Failed to fetch tasks", loading := false }, [req])

/-- App.js `createTask`: return immediately when the trimmed description is
empty; otherwise set loading, clear the error, `POST /tasks`, and on success
clear the input and reload via `fetchTasks`; any throw records its message. -/
def createTask (s : AppState) (session : SessionResult) (postOut : FetchOutcome)
    (reloadSession : SessionResult) (reloadOut : FetchOutcome) :
    AppState × List Request :=
  if jsTrim s.newTaskDescription = "" then (s, [])
  else
    let s1 := { s with loading := true, error := "" }
    let req : Request :=
      { method := "POST", url := tasksUrl, auth := getAuthToken session,
        body := some s.newTaskDescription }
    match postOut with
    | .networkError msg => ({ s1 with error := msg, loading := false }, [req])
    | .response status _ =>
      if respOk status then
        let s2 := { s1 with newTaskDescription := "" }
        let r := fetchTasks s2 reloadSession reloadOut
        ({ r.1 with loading := false }, req :: r.2)
      else
        ({ s1 with error := "Failed to create task", loading := false }, [req])

/-- App.js `updateTaskStatus`: set loading, clear the error, `PUT` the new
status to the task's URL, reload on success; any throw records its message. -/
def updateTaskStatus (s : AppState) (taskId : Option String) (newStatus : String)
    (session : SessionResult) (putOut : FetchOutcome)
    (reloadSession : SessionResult) (reloadOut : FetchOutcome) :
    AppState × List Request :=
  let s1 := { s with loading := true, error := "" }
  let req : Request :=
    { method := "PUT", url := taskUrl taskId, auth := getAuthToken session,
      body := some newStatus }
  match putOut with
  | .networkError msg => ({ s1 with error := msg, loading := false }, [req])
  | .response status _ =>
    if respOk status then
      let r := fetchTasks s1 reloadSession reloadOut
      ({ r.1 with loading := false }, req :: r.2)
    else
      ({ s1 with error := "Failed to update task", loading := false }, [req])

/-- App.js `deleteTask`: the synchronous `window.confirm` gate comes first
(`confirmed` is its result); when declined, nothing at all happens.
Otherwise `DELETE` the task's URL and reload on success. -/
def deleteTask (s : AppState) (confirmed : Bool) (taskId : Option String)
    (session : SessionResult) (delOut : FetchOutcome)
    (reloadSession : SessionResult) (reloadOut : FetchOutcome) :
    AppState × List Request :=
  if !confirmed then (s, [])
  else
    let s1 := { s with loading := true, error := "" }
    let req : Request :=
      { method := "DELETE", url := taskUrl taskId, auth := getAuthToken session,
        body := none }
    match delOut with
    | .networkError msg => ({ s1 with error := msg, loading := false }, [req])
    | .response status _ =>
      if respOk status then
        let r := fetchTasks s1 reloadSession reloadOut
        ({ r.1 with loading := false }, req :: r.2)
      else
        ({ s1 with error := "Failed to delete task", loading := false }, [req])

/-- Outcome of the provider's `signIn` call: either a result object with
`isSignedIn` and `nextStep.signInStep`, or a thrown error whose `message`
may be absent (JavaScript `err.message || fallback`). -/
inductive SignInResult where
  | ok (isSignedIn : Bool) (signInStep : String)
  | err (msg : Option String)
deriving DecidableEq

/-- JavaScript `m || fallback` on an optional string: the fallback is used
when the message is absent or empty. -/
def jsOrElse (m : Option String) (fallback : String) : String :=
  match m with
  | some v => if v = "" then fallback else v
  | none => fallback

/-- App.js `handleSignIn`: clear the error and set loading; on `isSignedIn`
refresh the user via `checkUser`; on the `CONFIRM_SIGN_UP` next step switch
to the confirmation form with an explanatory error; on any other incomplete
step or thrown error record a message; `finally` clears loading. -/
def handleSignIn (s : AppState) (r : SignInResult) (cu : CurrentUserResult) :
    AppState :=
  let s1 := { s with error := "", loading := true }
  match r with
  | .ok true _ => { checkUser s1 cu with loading := false }
  | .ok false step =>
    if step = "CONFIRM_SIGN_UP" then
      { s1 with needsConfirmation := true,
                error := "Your account is not confirmed. Please enter the confirmation code sent to your email.",
                loading := false }
    else
      { s1 with error := "Sign in incomplete. Please try again.", loading := false }
  | .err msg =>
    { s1 with error := jsOrElse msg "Failed to sign in. Please check your credentials.",
              loading := false }

/-- App.js `getFilteredTasks`: the whole cache for the `all` filter,
otherwise a case-insensitive filter on `Status`. -/
def getFilteredTasks (s : AppState) : List Task :=
  if s.filter = "all" then s.tasks
  else s.tasks.filter (fun t => t.Status.toLower = s.filter.toLower)

/-- Case-insensitive string equality, as JavaScript code compares
`a.toLowerCase() === b.toLowerCase()`. -/
def eqCaseInsensitive (a b : String) : Bool :=
  a.toLower = b.toLower

/-- All component state other than the error message and the loading flag
agrees between `s` and `t`. -/
def unchangedExceptErrorLoading (s t : AppState) : Prop :=
  t.user = s.user ∧ t.tasks = s.tasks ∧ t.email = s.email ∧
  t.password = s.password ∧ t.isSignUp = s.isSignUp ∧
  t.needsConfirmation = s.needsConfirmation ∧
  t.confirmationCode = s.confirmationCode ∧
  t.newTaskDescription = s.newTaskDescription ∧ t.filter = s.filter

instance (s t : AppState) : Decidable (unchangedExceptErrorLoading s t) := by
  unfold unchangedExceptErrorLoading; infer_instance

end App

namespace Part000

/-- Outcome of `Amplify.Auth.currentSession()` in the legacy script: a
session whose id token yields a JWT, or a thrown error. -/
inductive CurrentSessionResult where
  | ok (jwt : String)
  | err (msg : String)
deriving DecidableEq

/-- Legacy `custom_header`: the `Authorization` header from the current
session's JWT, or the empty header set when `currentSession()` throws. -/
def custom_header : CurrentSessionResult → List (String × String)
  | .ok jwt => [("Authorization", jwt)]
  | .err _ => []

/-- An Amplify `API.*` request issued by the legacy script. -/
structure ApiRequest where
  method : String
  path : String
  headers : List (String × String)
deriving DecidableEq

/-- Outcome of one Amplify `API.*` call. -/
inductive ApiOutcome where
  | ok
  | err (msg : String)
deriving DecidableEq

/-- Legacy `createTask`: return when the raw input is falsy (only the empty
string — no trimming); otherwise `POST /tasks` and refresh the list on
success.  Errors are only logged. -/
def createTask (description : String) (sess : CurrentSessionResult)
    (out : ApiOutcome) : List ApiRequest :=
  if description = "" then []
  else
    { method := "POST", path := "/tasks", headers := custom_header sess } ::
    match out with
    | .ok => [{ method := "GET", path := "/tasks", headers := custom_header sess }]
    | .err _ => []

/-- Legacy `deleteTask`: gated on the synchronous `confirm` prompt before
anything else; on confirmation `DELETE /tasks/{id}` and refresh on success. -/
def deleteTask (confirmed : Bool) (taskId : String) (sess : CurrentSessionResult)
    (out : ApiOutcome) : List ApiRequest :=
  if !confirmed then []
  else
    { method := "DELETE", path := "/tasks/" ++ taskId, headers := custom_header sess } ::
    match out with
    | .ok => [{ method := "GET", path := "/tasks", headers := custom_header sess }]
    | .err _ => []

end Part000

/-! Concrete states used when instantiating the theorems below. -/

/-- A signed-out initial component state (the `useState` initial values). -/
def s0 : App.AppState :=
  { user := none, tasks := [], loading := false, error := "", email := "",
    password := "", isSignUp := false, needsConfirmation := false,
    confirmationCode := "", newTaskDescription := "", filter := "all" }

/-- A sample pending task. -/
def tPending : App.Task :=
  { SK := "TASK#1", Description := "write spec", Status := "Pending",
    Date := "2024-01-01", Deadline := "2024-02-01" }

/-- A sample completed task. -/
def tDone : App.Task :=
  { SK := "TASK#2", Description := "read spec", Status := "Completed",
    Date := "2024-01-01", Deadline := "2024-02-01" }

/-- A state holding two tasks with the `pending` filter selected. -/
def sPending : App.AppState :=
  { s0 with tasks := [tPending, tDone], filter := "pending" }

/-- A state with a cached task and a pending new-task description. -/
def sDraft : App.AppState :=
  { s0 with tasks := [tPending], newTaskDescription := "buy milk" }

/-! Helper lemmas. -/

theorem splitChar_ne_nil (c : Char) (l : List Char) : splitChar c l ≠ [] := by
  induction l with
  | nil => simp [splitChar]
  | cons x xs ih =>
    by_cases hx : x = c
    · simp [splitChar, hx]
    · cases h : splitChar c xs with
      | nil => simp [splitChar, hx, h]
      | cons y ys => simp [splitChar, hx, h]

theorem splitChar_not_mem (c : Char) (l : List Char) (h : c ∉ l) :
    splitChar c l = [l] := by
  induction l with
  | nil => rfl
  | cons x xs ih =>
    have hx : ¬x = c := fun hxc => h (hxc ▸ List.mem_cons_self x xs)
    have hxs : c ∉ xs := fun hm => h (List.mem_cons_of_mem x hm)
    simp [splitChar, hx, ih hxs]

theorem splitChar_append_sep (c : Char) (p rest : List Char) (h : c ∉ p) :
    splitChar c (p ++ c :: rest) = p :: splitChar c rest := by
  induction p with
  | nil => simp [splitChar]
  | cons x xs ih =>
    have hx : ¬x = c := fun hxc => h (hxc ▸ List.mem_cons_self x xs)
    have hxs : c ∉ xs := fun hm => h (List.mem_cons_of_mem x hm)
    simp [splitChar, hx, ih hxs]

theorem jsTrim_of_all_whitespace (s : String)
    (h : s.data.all isJsWhitespace = true) : jsTrim s = "" := by
  have h1 : s.data.dropWhile isJsWhitespace = [] :=
    List.dropWhile_eq_nil_iff.mpr (fun x hx => (List.all_eq_true.mp h) x hx)
  unfold jsTrim
  rw [h1]
  rfl

theorem fetchTasks_failure_preserves (s : App.AppState) (sess : App.SessionResult)
    (out : App.FetchOutcome) (h : App.outcomeFails out = true) :
    (App.fetchTasks s sess out).1.tasks = s.tasks ∧
    App.unchangedExceptErrorLoading s (App.fetchTasks s sess out).1 := by
  cases out with
  | networkError msg =>
    exact ⟨rfl, by simp [App.fetchTasks, App.unchangedExceptErrorLoading]⟩
  | response status items =>
    have hst : App.respOk status = false := by
      simpa [App.outcomeFails] using h
    refine ⟨?_, ?_⟩ <;>
      simp [App.fetchTasks, App.unchangedExceptErrorLoading, hst]

/-! Claim theorems. -/

/-- C1: when the identity-provider session call fails for any reason, the
token-refresh operation does not raise: App.js `getAuthToken` returns `null`
(absent), the legacy `custom_header` returns the empty header set, and no
user-visible error state is produced (a load whose session refresh failed but
whose HTTP call succeeded leaves the error message empty). -/
theorem getAuthToken_failure_yields_absent_token (msg : String)
    (s : App.AppState) (items : Option (List App.Task)) :
    App.getAuthToken (.err msg) = none ∧
    Part000.custom_header (.err msg) = [] ∧
    (App.fetchTasks s (.err msg) (.response 200 items)).1.error = "" := by
  refine ⟨rfl, rfl, ?_⟩
  simp [App.fetchTasks, App.respOk]

/-- C3: a sign-in attempt answered with `isSignedIn = false` and next step
`CONFIRM_SIGN_UP` moves the component into the confirmation flow
(`needsConfirmation = true`) with a non-empty error message, and the user
stays signed out (`user` remains `null`), for every possible outcome of the
provider's current-user lookup. -/
theorem signIn_unconfirmed_goes_pending (s : App.AppState)
    (cu : App.CurrentUserResult) (h : s.user = none) :
    (App.handleSignIn s (.ok false "CONFIRM_SIGN_UP") cu).needsConfirmation = true ∧
    (App.handleSignIn s (.ok false "CONFIRM_SIGN_UP") cu).error ≠ "" ∧
    (App.handleSignIn s (.ok false "CONFIRM_SIGN_UP") cu).user = none := by
  refine ⟨?_, ?_, ?_⟩ <;> simp [App.handleSignIn, h]

/-- Witness for C3 at the initial signed-out state. -/
theorem signIn_unconfirmed_goes_pending_witness :
    (App.handleSignIn s0 (.ok false "CONFIRM_SIGN_UP") .err).needsConfirmation = true ∧
    (App.handleSignIn s0 (.ok false "CONFIRM_SIGN_UP") .err).error ≠ "" ∧
    (App.handleSignIn s0 (.ok false "CONFIRM_SIGN_UP") .err).user = none :=
  signIn_unconfirmed_goes_pending s0 .err rfl

/-- C6: a delete invocation whose confirmation prompt is declined issues no
network call and changes no client state, in both the React component and
the legacy script. -/
theorem deleteTask_declined_is_noop (s : App.AppState) (tid : Option String)
    (sess rsess : App.SessionResult) (out rout : App.FetchOutcome)
    (tid2 : String) (sess2 : Part000.CurrentSessionResult)
    (out2 : Part000.ApiOutcome) :
    App.deleteTask s false tid sess out rsess rout = (s, []) ∧
    Part000.deleteTask false tid2 sess2 out2 = [] :=
  ⟨rfl, rfl⟩

/-- C10: a successful (2xx) load whose JSON body lacks the `Items` field
replaces the cached task list with the empty list and reports no error — a
non-error full clear — whereas a failing load preserves the previous list. -/
theorem load_missing_items_clears_cache (s : App.AppState)
    (sess : App.SessionResult) (status : Nat) (msg : String)
    (h : App.respOk status = true) :
    (App.fetchTasks s sess (.response status none)).1.tasks = [] ∧
    (App.fetchTasks s sess (.response status none)).1.error = "" ∧
    (App.fetchTasks s sess (.networkError msg)).1.tasks = s.tasks := by
  refine ⟨?_, ?_, rfl⟩ <;> simp [App.fetchTasks, h]

/-- Witness for C10: a 200 response with no `Items` clears a non-empty cache. -/
theorem load_missing_items_clears_cache_witness :
    (App.fetchTasks sPending (.ok (some "tok")) (.response 200 none)).1.tasks = [] ∧
    (App.fetchTasks sPending (.ok (some "tok")) (.response 200 none)).1.error = "" ∧
    (App.fetchTasks sPending (.ok (some "tok")) (.networkError "boom")).1.tasks = sPending.tasks :=
  load_missing_items_clears_cache sPending (.ok (some "tok")) 200 "boom" (by decide)

/-- C4: filtering by `all` returns the cached list itself, unchanged and in
order; filtering by any of `pending`, `completed`, `expired` returns exactly
the cached-order sublist of tasks whose `Status` equals the criterion
case-insensitively. -/
theorem filteredTasks_spec (s : App.AppState) :
    (s.filter = "all" → App.getFilteredTasks s = s.tasks) ∧
    (∀ x, x ∈ ["pending", "completed", "expired"] → s.filter = x →
      App.getFilteredTasks s =
        s.tasks.filter (fun t => App.eqCaseInsensitive t.Status x)) := by
  constructor
  · intro h
    simp [App.getFilteredTasks, h]
  · intro x hx hf
    unfold App.getFilteredTasks App.eqCaseInsensitive
    rw [hf]
    fin_cases hx <;> simp

/-- Witness for C4: the `pending` filter on a two-task cache, and the `all`
filter on the initial state. -/
theorem filteredTasks_spec_witness :
    App.getFilteredTasks sPending =
      sPending.tasks.filter (fun t => App.eqCaseInsensitive t.Status "pending") ∧
    App.getFilteredTasks s0 = s0.tasks :=
  ⟨(filteredTasks_spec sPending).2 "pending" (by decide) rfl,
   (filteredTasks_spec s0).1 rfl⟩

/-- Counterexample for C5: the claim quantifies over every create-task
invocation, including the legacy script's `createTask`, but that variant
checks only `!description` (exact emptiness, no trim): on the whitespace-only
description consisting of a single space it does issue the `POST /tasks`
network call. -/
theorem createTask_blank_counterexample :
    (" ").data.all isJsWhitespace = true ∧
    Part000.createTask " " (.ok "jwt") .ok ≠ [] := by
  decide

/-- C5 as amended: the React component's `createTask` returns without any
network call and with no state change whenever the description is empty or
all-whitespace; the legacy variant guarantees this only for the exactly-empty
description, and issues the call for any non-empty description. -/
theorem createTask_blank_rejected (s : App.AppState)
    (sess rsess : App.SessionResult) (postOut reloadOut : App.FetchOutcome)
    (sess2 : Part000.CurrentSessionResult) (out2 : Part000.ApiOutcome)
    (d : String) (h : s.newTaskDescription.data.all isJsWhitespace = true)
    (hd : d ≠ "") :
    App.createTask s sess postOut rsess reloadOut = (s, []) ∧
    Part000.createTask "" sess2 out2 = [] ∧
    Part000.createTask d sess2 out2 ≠ [] := by
  refine ⟨?_, rfl, ?_⟩
  · simp [App.createTask, jsTrim_of_all_whitespace s.newTaskDescription h]
  · cases out2 <;> simp [Part000.createTask, hd]

/-- Witness for the amended C5: a whitespace-only draft in the React state,
and the one-letter description in the legacy script. -/
theorem createTask_blank_rejected_witness :
    App.createTask { s0 with newTaskDescription := "  " } (.ok (some "tok"))
        (.response 200 none) (.ok (some "tok")) (.response 200 none) =
      ({ s0 with newTaskDescription := "  " }, []) ∧
    Part000.createTask "" (.ok "jwt") .ok = [] ∧
    Part000.createTask "x" (.ok "jwt") .ok ≠ [] :=
  createTask_blank_rejected { s0 with newTaskDescription := "  " }
    (.ok (some "tok")) (.ok (some "tok")) (.response 200 none) (.response 200 none)
    (.ok "jwt") .ok "x" (by decide) (by decide)

/-- C8: for a composite sort key of the form `prefixPart#id` (optionally with
further `#`-separated components after the id), `getTaskId` returns exactly
the second `#`-separated component, and the single-task URL used by the
update and delete requests is the API base followed by `/tasks/` and that
component. -/
theorem getTaskId_second_component (pre tid : String)
    (h1 : '#' ∉ pre.data) (h2 : '#' ∉ tid.data) :
    App.getTaskId (pre ++ "#" ++ tid) = some tid ∧
    (∀ rest : String,
      App.getTaskId (pre ++ "#" ++ tid ++ "#" ++ rest) = some tid) ∧
    App.taskUrl (App.getTaskId (pre ++ "#" ++ tid)) =
      App.API_ENDPOINT ++ "/tasks/" ++ tid := by
  have hdata : (pre ++ "#" ++ tid).data = pre.data ++ '#' :: tid.data := by
    simp [String.data_append]
  have hsplit : jsSplit '#' (pre ++ "#" ++ tid) = [pre, tid] := by
    unfold jsSplit
    rw [hdata, splitChar_append_sep '#' pre.data tid.data h1,
        splitChar_not_mem '#' tid.data h2]
    rfl
  have hfst : App.getTaskId (pre ++ "#" ++ tid) = some tid := by
    unfold App.getTaskId
    rw [hsplit]
    rfl
  refine ⟨hfst, ?_, ?_⟩
  · intro rest
    have hdata2 : (pre ++ "#" ++ tid ++ "#" ++ rest).data =
        pre.data ++ '#' :: (tid.data ++ '#' :: rest.data) := by
      simp [String.data_append]
    unfold App.getTaskId jsSplit
    rw [hdata2, splitChar_append_sep '#' pre.data _ h1,
        splitChar_append_sep '#' tid.data rest.data h2]
    simp
  · rw [hfst]
    rfl

/-- Witness for C8 on the key `TASK#123`. -/
theorem getTaskId_second_component_witness :
    App.getTaskId ("TASK" ++ "#" ++ "123") = some "123" ∧
    (∀ rest : String,
      App.getTaskId ("TASK" ++ "#" ++ "123" ++ "#" ++ rest) = some "123") ∧
    App.taskUrl (App.getTaskId ("TASK" ++ "#" ++ "123")) =
      App.API_ENDPOINT ++ "/tasks/" ++ "123" :=
  getTaskId_second_component "TASK" "123" (by decide) (by decide)

/-- C9: on a sort key containing no `#` separator, `getTaskId` is undefined
(absent): the derivation is partial over arbitrary key strings.  The delete
and status-update operations built from such a key still issue their request,
targeting the path ending in the literal text `undefined` instead of failing
fast. -/
theorem getTaskId_no_separator (sk : String) (h : '#' ∉ sk.data)
    (s : App.AppState) (sess rsess : App.SessionResult)
    (out rout : App.FetchOutcome) (st : String) :
    App.getTaskId sk = none ∧
    App.taskUrl (App.getTaskId sk) = App.API_ENDPOINT ++ "/tasks/undefined" ∧
    ((App.deleteTask s true (App.getTaskId sk) sess out rsess rout).2.head?).map
        App.Request.url = some (App.API_ENDPOINT ++ "/tasks/undefined") ∧
    ((App.updateTaskStatus s (App.getTaskId sk) st sess out rsess rout).2.head?).map
        App.Request.url = some (App.API_ENDPOINT ++ "/tasks/undefined") := by
  have hnone : App.getTaskId sk = none := by
    unfold App.getTaskId jsSplit
    rw [splitChar_not_mem '#' sk.data h]
    rfl
  have hurl : App.taskUrl (App.getTaskId sk) =
      App.API_ENDPOINT ++ "/tasks/undefined" := by
    rw [hnone]
    rfl
  have hu : App.API_ENDPOINT ++ "/tasks/" ++ jsToString none =
      App.API_ENDPOINT ++ "/tasks/undefined" := by decide
  refine ⟨hnone, hurl, ?_, ?_⟩
  · cases out with
    | networkError msg => simp [App.deleteTask, App.taskUrl, hnone, hu]
    | response status items =>
      by_cases hst : App.respOk status = true <;>
        simp [App.deleteTask, App.taskUrl, hnone, hst, hu]
  · cases out with
    | networkError msg => simp [App.updateTaskStatus, App.taskUrl, hnone, hu]
    | response status items =>
      by_cases hst : App.respOk status = true <;>
        simp [App.updateTaskStatus, App.taskUrl, hnone, hst, hu]

/-- Witness for C9 on the separator-free key `orphan`. -/
theorem getTaskId_no_separator_witness :
    App.getTaskId "orphan" = none ∧
    App.taskUrl (App.getTaskId "orphan") = App.API_ENDPOINT ++ "/tasks/undefined" ∧
    ((App.deleteTask s0 true (App.getTaskId "orphan") (.ok (some "tok"))
        (.response 200 none) (.ok (some "tok")) (.response 200 none)).2.head?).map
        App.Request.url = some (App.API_ENDPOINT ++ "/tasks/undefined") ∧
    ((App.updateTaskStatus s0 (App.getTaskId "orphan") "Completed" (.ok (some "tok"))
        (.response 200 none) (.ok (some "tok")) (.response 200 none)).2.head?).map
        App.Request.url = some (App.API_ENDPOINT ++ "/tasks/undefined") :=
  getTaskId_no_separator "orphan" (by decide) s0 (.ok (some "tok")) (.ok (some "tok"))
    (.response 200 none) (.response 200 none) "Completed"

theorem updateTaskStatus_failure_frame (s : App.AppState) (tid : Option String)
    (st : String) (sess rsess : App.SessionResult)
    (postOut reloadOut : App.FetchOutcome)
    (h : App.outcomeFails postOut = true ∨ App.outcomeFails reloadOut = true) :
    (App.updateTaskStatus s tid st sess postOut rsess reloadOut).1.tasks = s.tasks ∧
    App.unchangedExceptErrorLoading s
      (App.updateTaskStatus s tid st sess postOut rsess reloadOut).1 := by
  cases postOut with
  | networkError msg =>
    constructor <;> simp [App.updateTaskStatus, App.unchangedExceptErrorLoading]
  | response status items =>
    by_cases hst : App.respOk status = true
    · have hr : App.outcomeFails reloadOut = true := by
        rcases h with h1 | h2
        · simp [App.outcomeFails, hst] at h1
        · exact h2
      cases reloadOut with
      | networkError m2 =>
        constructor <;>
          simp [App.updateTaskStatus, App.fetchTasks, hst,
                App.unchangedExceptErrorLoading]
      | response st2 it2 =>
        have hst2 : App.respOk st2 = false := by
          simpa [App.outcomeFails] using hr
        constructor <;>
          simp [App.updateTaskStatus, App.fetchTasks, hst, hst2,
                App.unchangedExceptErrorLoading]
    · constructor <;>
        simp [App.updateTaskStatus, hst, App.unchangedExceptErrorLoading]

theorem deleteTask_failure_frame (s : App.AppState) (tid : Option String)
    (sess rsess : App.SessionResult) (postOut reloadOut : App.FetchOutcome)
    (h : App.outcomeFails postOut = true ∨ App.outcomeFails reloadOut = true) :
    (App.deleteTask s true tid sess postOut rsess reloadOut).1.tasks = s.tasks ∧
    App.unchangedExceptErrorLoading s
      (App.deleteTask s true tid sess postOut rsess reloadOut).1 := by
  cases postOut with
  | networkError msg =>
    constructor <;> simp [App.deleteTask, App.unchangedExceptErrorLoading]
  | response status items =>
    by_cases hst : App.respOk status = true
    · have hr : App.outcomeFails reloadOut = true := by
        rcases h with h1 | h2
        · simp [App.outcomeFails, hst] at h1
        · exact h2
      cases reloadOut with
      | networkError m2 =>
        constructor <;>
          simp [App.deleteTask, App.fetchTasks, hst,
                App.unchangedExceptErrorLoading]
      | response st2 it2 =>
        have hst2 : App.respOk st2 = false := by
          simpa [App.outcomeFails] using hr
        constructor <;>
          simp [App.deleteTask, App.fetchTasks, hst, hst2,
                App.unchangedExceptErrorLoading]
    · constructor <;>
        simp [App.deleteTask, hst, App.unchangedExceptErrorLoading]

theorem createTask_failure_frame (s : App.AppState)
    (sess rsess : App.SessionResult) (postOut reloadOut : App.FetchOutcome)
    (h : App.outcomeFails postOut = true ∨ App.outcomeFails reloadOut = true) :
    (App.createTask s sess postOut rsess reloadOut).1.tasks = s.tasks ∧
    (App.outcomeFails postOut = true →
      App.unchangedExceptErrorLoading s
        (App.createTask s sess postOut rsess reloadOut).1) ∧
    ((App.createTask s sess postOut rsess reloadOut).1.newTaskDescription =
        s.newTaskDescription ∨
     (App.createTask s sess postOut rsess reloadOut).1.newTaskDescription = "") := by
  by_cases hb : jsTrim s.newTaskDescription = ""
  · refine ⟨?_, ?_, Or.inl ?_⟩ <;>
      simp [App.createTask, hb, App.unchangedExceptErrorLoading]
  · cases postOut with
    | networkError msg =>
      refine ⟨?_, ?_, Or.inl ?_⟩ <;>
        simp [App.createTask, hb, App.unchangedExceptErrorLoading]
    | response status items =>
      by_cases hst : App.respOk status = true
      · have hr : App.outcomeFails reloadOut = true := by
          rcases h with h1 | h2
          · simp [App.outcomeFails, hst] at h1
          · exact h2
        cases reloadOut with
        | networkError m2 =>
          refine ⟨?_, ?_, Or.inr ?_⟩ <;>
            simp [App.createTask, App.fetchTasks, hb, hst, App.outcomeFails]
        | response st2 it2 =>
          have hst2 : App.respOk st2 = false := by
            simpa [App.outcomeFails] using hr
          refine ⟨?_, ?_, Or.inr ?_⟩ <;>
            simp [App.createTask, App.fetchTasks, hb, hst, hst2, App.outcomeFails]
      · refine ⟨?_, ?_, Or.inl ?_⟩ <;>
          simp [App.createTask, hb, hst, App.unchangedExceptErrorLoading]

/-- Counterexample for C2: run `createTask` on a state with a cached task and
the draft description `buy milk`, let the `POST` succeed (200) and the
subsequent reload fail with a network error — a failure "before the
subsequent reload succeeds".  The cached list is indeed preserved, but the
pending description input has also been cleared, so more than the error
message and the loading flag changed. -/
theorem mutation_failure_frame_counterexample :
    App.outcomeFails (.networkError "Failed to fetch") = true ∧
    (App.createTask sDraft (.ok (some "tok")) (.response 200 none)
        (.ok (some "tok")) (.networkError "Failed to fetch")).1.newTaskDescription ≠
      sDraft.newTaskDescription ∧
    (App.createTask sDraft (.ok (some "tok")) (.response 200 none)
        (.ok (some "tok")) (.networkError "Failed to fetch")).1.tasks =
      sDraft.tasks := by
  decide

/-- C2 as amended: when a mutation fails at any point before its reload
succeeds (its own call rejects or returns non-2xx, or the reload does), the
cached task list afterwards equals the list before.  For `updateTaskStatus`
and `deleteTask` only the error message and loading flag change; the same
holds for `createTask` when its own `POST` fails, but once the `POST` has
succeeded the draft description has been cleared, so after a reload-only
failure that input is empty rather than untouched. -/
theorem mutation_failure_preserves_cache (s : App.AppState)
    (sess rsess : App.SessionResult) (postOut reloadOut : App.FetchOutcome)
    (tid : Option String) (st : String)
    (h : App.outcomeFails postOut = true ∨ App.outcomeFails reloadOut = true) :
    (App.createTask s sess postOut rsess reloadOut).1.tasks = s.tasks ∧
    (App.updateTaskStatus s tid st sess postOut rsess reloadOut).1.tasks = s.tasks ∧
    (App.deleteTask s true tid sess postOut rsess reloadOut).1.tasks = s.tasks ∧
    App.unchangedExceptErrorLoading s
      (App.updateTaskStatus s tid st sess postOut rsess reloadOut).1 ∧
    App.unchangedExceptErrorLoading s
      (App.deleteTask s true tid sess postOut rsess reloadOut).1 ∧
    (App.outcomeFails postOut = true →
      App.unchangedExceptErrorLoading s
        (App.createTask s sess postOut rsess reloadOut).1) ∧
    ((App.createTask s sess postOut rsess reloadOut).1.newTaskDescription =
        s.newTaskDescription ∨
     (App.createTask s sess postOut rsess reloadOut).1.newTaskDescription = "") := by
  obtain ⟨hc1, hc2, hc3⟩ := createTask_failure_frame s sess rsess postOut reloadOut h
  obtain ⟨hu1, hu2⟩ := updateTaskStatus_failure_frame s tid st sess rsess postOut reloadOut h
  obtain ⟨hd1, hd2⟩ := deleteTask_failure_frame s tid sess rsess postOut reloadOut h
  exact ⟨hc1, hu1, hd1, hu2, hd2, hc2, hc3⟩

/-- Witness for the amended C2: a `POST` answered 500 against the draft
state, with a reload that would succeed. -/
theorem mutation_failure_preserves_cache_witness :
    (App.createTask sDraft (.ok (some "tok")) (.response 500 none)
        (.ok (some "tok")) (.response 200 none)).1.tasks = sDraft.tasks ∧
    (App.updateTaskStatus sDraft (some "1") "Completed" (.ok (some "tok"))
        (.response 500 none) (.ok (some "tok")) (.response 200 none)).1.tasks =
      sDraft.tasks ∧
    (App.deleteTask sDraft true (some "1") (.ok (some "tok")) (.response 500 none)
        (.ok (some "tok")) (.response 200 none)).1.tasks = sDraft.tasks ∧
    App.unchangedExceptErrorLoading sDraft
      (App.updateTaskStatus sDraft (some "1") "Completed" (.ok (some "tok"))
        (.response 500 none) (.ok (some "tok")) (.response 200 none)).1 ∧
    App.unchangedExceptErrorLoading sDraft
      (App.deleteTask sDraft true (some "1") (.ok (some "tok")) (.response 500 none)
        (.ok (some "tok")) (.response 200 none)).1 ∧
    (App.outcomeFails (.response 500 none) = true →
      App.unchangedExceptErrorLoading sDraft
        (App.createTask sDraft (.ok (some "tok")) (.response 500 none)
          (.ok (some "tok")) (.response 200 none)).1) ∧
    ((App.createTask sDraft (.ok (some "tok")) (.response 500 none)
        (.ok (some "tok")) (.response 200 none)).1.newTaskDescription =
        sDraft.newTaskDescription ∨
     (App.createTask sDraft (.ok (some "tok")) (.response 500 none)
        (.ok (some "tok")) (.response 200 none)).1.newTaskDescription = "") :=
  mutation_failure_preserves_cache sDraft (.ok (some "tok")) (.ok (some "tok"))
    (.response 500 none) (.response 200 none) (some "1") "Completed"
    (Or.inl (by decide))

/-- Counterexample for C7: a non-2xx response does not produce a failure
carrying the response's status code — a 404 and a 500 yield byte-identical
outcomes (same next state, same requests) — and the 404 outcome is also
identical to that of a network-level failure whose thrown message happens to
be the fixed string, so the two failure kinds are not reliably
distinguishable either. -/
theorem httpError_no_status_counterexample :
    App.fetchTasks s0 (.ok (some "tok")) (.response 404 none) =
      App.fetchTasks s0 (.ok (some "tok")) (.response 500 none) ∧
    App.fetchTasks s0 (.ok (some "tok")) (.response 404 none) =
      App.fetchTasks s0 (.ok (some "tok"))
        (.networkError "Failed to fetch tasks") ∧
    (404 : Nat) ≠ 500 := by
  decide

/-- C7 as amended: a non-2xx response makes the call fail with a fixed
per-operation message (`Failed to fetch tasks`, `Failed to update task`, …)
that carries no status code, while a network-level failure surfaces the
thrown error's own message — the two are therefore distinguishable only when
that transport message differs from the fixed string. -/
theorem httpFailure_fixed_message (s : App.AppState) (sess rsess : App.SessionResult)
    (status : Nat) (items : Option (List App.Task)) (tid : Option String)
    (st : String) (rout : App.FetchOutcome) (h : App.respOk status = false) :
    (App.fetchTasks s sess (.response status items)).1.error =
      "Failed to fetch tasks" ∧
    (App.updateTaskStatus s tid st sess (.response status items) rsess rout).1.error =
      "Failed to update task" ∧
    (App.deleteTask s true tid sess (.response status items) rsess rout).1.error =
      "Failed to delete task" ∧
    (∀ msg, (App.fetchTasks s sess (.networkError msg)).1.error = msg) := by
  refine ⟨?_, ?_, ?_, fun msg => rfl⟩ <;>
    simp [App.fetchTasks, App.updateTaskStatus, App.deleteTask, h]

/-- Witness for the amended C7 at status 404. -/
theorem httpFailure_fixed_message_witness :
    (App.fetchTasks s0 (.ok (some "tok")) (.response 404 none)).1.error =
      "Failed to fetch tasks" ∧
    (App.updateTaskStatus s0 (some "1") "Completed" (.ok (some "tok"))
        (.response 404 none) (.ok (some "tok")) (.response 200 none)).1.error =
      "Failed to update task" ∧
    (App.deleteTask s0 true (some "1") (.ok (some "tok")) (.response 404 none)
        (.ok (some "tok")) (.response 200 none)).1.error =
      "Failed to delete task" ∧
    (∀ msg, (App.fetchTasks s0 (.ok (some "tok")) (.networkError msg)).1.error = msg) :=
  httpFailure_fixed_message s0 (.ok (some "tok")) (.ok (some "tok")) 404 none
    (some "1") "Completed" (.response 200 none) (by decide)
